import Mathlib

/-!
Verification of the seekkrr admin-portal authentication/authorization core.

The development shallowly embeds the TypeScript sources:
* `src/types/index.ts` — `Role`, `User`, `AuthTokens`, `ALLOWED_ADMIN_ROLES`;
* `src/store/auth.store.ts` — the zustand Session Store (`setUser`, `login`,
  `logout`, `checkAuth`, persist middleware with `partialize`);
* `src/services/auth.service.ts` — `authService` (token storage access,
  best-effort logout notification, current-user fetch);
* the `ProtectedRoute` route guard;
* `UsersPage` (role gate and users-listing query);
* the `usePaginationRange` hook;
* the shared `ConfirmModal` component.

Network outcomes (the identity fetch inside `checkAuth`, the logout
notification) are supplied as explicit environment parameters, mirroring the
places where the TypeScript code awaits an HTTP call that can either resolve
or throw.  HTTP requests issued by an operation are recorded in a log so that
"performs no network call" claims are expressible.
-/

namespace AdminPortal

/-- `User["role"]` from `src/types/index.ts`: the closed role enumeration. -/
inductive Role where
  | user
  | admin
  | super_admin
  | creator
  | moderator
  | finance
deriving DecidableEq, Repr

/-- `User["status"]` from `src/types/index.ts`. -/
inductive UserStatus where
  | active
  | suspended
  | deleted
deriving DecidableEq, Repr

/-- `ALLOWED_ADMIN_ROLES` from `src/types/index.ts`: the platform-wide minimum
allow-list of roles permitted to reach any admin surface. -/
def ALLOWED_ADMIN_ROLES : List Role :=
  [Role.admin, Role.super_admin, Role.moderator, Role.finance]

/-- The `User` interface from `src/types/index.ts` (the TS field `_id` is named
`id` here; timestamps kept as strings as in the source). -/
structure User where
  id : String
  first_name : String
  last_name : String
  contact_id : String
  security_id : String
  profile_id : String
  role : Role
  status : UserStatus
  is_creator : Bool
  created_at : String
  updated_at : String
deriving DecidableEq, Repr

/-- The `AuthTokens` interface from `src/types/index.ts`. -/
structure AuthTokens where
  access_token : String
  refresh_token : String
  token_type : String
  user_id : String
  expires_in : Option Nat
deriving DecidableEq, Repr

/-- The token storage collaborator (`authStorage` in `src/services/api.ts`,
hidden behind `getToken`/`getRefreshToken`/`setTokens`/`clearTokens`). -/
structure TokenStorage where
  access : Option String
  refresh : Option String
deriving DecidableEq, Repr

/-- `authStorage.getToken()`. -/
def getToken (s : TokenStorage) : Option String := s.access

/-- `authStorage.getRefreshToken()`. -/
def getRefreshToken (s : TokenStorage) : Option String := s.refresh

/-- `authStorage.setTokens(access, refresh)`. -/
def setTokens (a r : String) (_s : TokenStorage) : TokenStorage :=
  { access := some a, refresh := some r }

/-- `authStorage.clearTokens()`. -/
def clearTokens (_s : TokenStorage) : TokenStorage :=
  { access := none, refresh := none }

/-- `authService.hasStoredToken()`: `!!authStorage.getToken()`. -/
def hasStoredToken (s : TokenStorage) : Bool := (getToken s).isSome

/-- The `AuthState` slice of the zustand store in `src/store/auth.store.ts`. -/
structure AuthState where
  user : Option User
  isAuthenticated : Bool
  isLoading : Bool
  error : Option String
deriving DecidableEq, Repr

/-- The Persisted Session Projection: the record produced by the persist
middleware's `partialize`, holding only `user` and `isAuthenticated`. -/
structure PersistedProjection where
  user : Option User
  isAuthenticated : Bool
deriving DecidableEq, Repr

/-- `partialize` from the persist options of `useAuthStore`:
`(state) => ({ user: state.user, isAuthenticated: state.isAuthenticated })`. -/
def partialize (s : AuthState) : PersistedProjection :=
  { user := s.user, isAuthenticated := s.isAuthenticated }

/-- The world a Session Store operation acts on: the in-memory state, the token
storage collaborator, the durable Session Projection written by the persist
middleware, and a log of HTTP requests issued so far. -/
structure World where
  state : AuthState
  storage : TokenStorage
  persisted : PersistedProjection
  httpLog : List String
deriving DecidableEq, Repr

/-- A zustand `set(...)`: replace the in-memory state with the merged record
`s` and (persist middleware) write `partialize s` to durable storage. -/
def storeSet (w : World) (s : AuthState) : World :=
  { w with state := s, persisted := partialize s }

/-- The initial state of `useAuthStore`: `user: null, isAuthenticated: false,
isLoading: false, error: null`. -/
def initialState : AuthState :=
  { user := none, isAuthenticated := false, isLoading := false, error := none }

/-- A fresh client: initial store state, empty token storage, the projection
the persist middleware writes for the initial state, no HTTP traffic. -/
def initialWorld : World :=
  { state := initialState
    storage := { access := none, refresh := none }
    persisted := partialize initialState
    httpLog := [] }

/-- `setUser` from `src/store/auth.store.ts`. -/
def setUserStore (u : User) (w : World) : World :=
  storeSet w { user := some u, isAuthenticated := true, isLoading := false, error := none }

/-- `setLoading` from `src/store/auth.store.ts` (partial `set`, other fields kept). -/
def setLoadingStore (b : Bool) (w : World) : World :=
  storeSet w { w.state with isLoading := b }

/-- `setError` from `src/store/auth.store.ts`. -/
def setErrorStore (e : Option String) (w : World) : World :=
  storeSet w { w.state with error := e, isLoading := false }

/-- `clearError` from `src/store/auth.store.ts`. -/
def clearErrorStore (w : World) : World :=
  storeSet w { w.state with error := none }

/-- `login(tokens)` from `src/store/auth.store.ts`:
`authService.storeTokens(tokens)` then
`set({ isAuthenticated: true, isLoading: true })` — a partial merge that does
not touch `user` or `error`. -/
def loginStore (t : AuthTokens) (w : World) : World :=
  let w1 : World := { w with storage := setTokens t.access_token t.refresh_token w.storage }
  storeSet w1 { w1.state with isAuthenticated := true, isLoading := true }

/-- Outcome of one HTTP request the environment resolves: the `await` either
resolves or throws an `Error` carrying `msg`. -/
inductive NetResult where
  | ok
  | err (msg : String)
deriving DecidableEq, Repr

/-- `logout()` from `src/store/auth.store.ts`, with `authService.logout()`
from `src/services/auth.service.ts` inlined.  The store does
`set({isLoading: true}); try { await authService.logout() } finally { set(reset) }`
— there is no `catch`, so an exception from the service escapes to the caller
after the `finally` reset.  The service reads the refresh token, POSTs the
logout notification only when one is present (outcome `env`), and clears the
tokens in its own `finally`.  Returns the resulting world paired with the
settled promise: `Except.error` means the returned promise rejects. -/
def logoutStore (env : NetResult) (w : World) : World × Except String Unit :=
  let w1 := storeSet w { w.state with isLoading := true }
  let refresh := getRefreshToken w1.storage
  let w2 : World :=
    match refresh with
    | some _ => { w1 with httpLog := w1.httpLog ++ ["POST /api/auth/logout"] }
    | none => w1
  let w3 : World := { w2 with storage := clearTokens w2.storage }
  let svcResult : Except String Unit :=
    match refresh, env with
    | some _, NetResult.err m => Except.error m
    | _, _ => Except.ok ()
  let w4 := storeSet w3
    { user := none, isAuthenticated := false, isLoading := false, error := none }
  (w4, svcResult)

/-- Outcome of `await authService.getCurrentUser()` inside `checkAuth`, as the
environment resolves it: the identity GET succeeds with a user; the GET is
issued but fails (network error, 401/404) and the thrown `Error` carries
`msg`; or the local access-token decode throws `msg` before any request. -/
inductive FetchOutcome where
  | ok (u : User)
  | httpErr (msg : String)
  | decodeErr (msg : String)
deriving DecidableEq, Repr

/-- `checkAuth()` from `src/store/auth.store.ts`.  If
`!authService.hasStoredToken()`: `set({isAuthenticated:false,isLoading:false})`
(a partial merge) and return `false` without touching the network.  Otherwise
`set({isLoading:true})`, await the identity fetch (outcome `env`; the GET to
`/api/core/users/:id` is logged when it was issued); on success run the RBAC
check against `ALLOWED_ADMIN_ROLES`; on a thrown error clear the tokens and
reset.  Returns the world paired with the boolean `checkAuth` resolves to. -/
def checkAuthStore (env : FetchOutcome) (w : World) : World × Bool :=
  if hasStoredToken w.storage then
    let w1 := storeSet w { w.state with isLoading := true }
    match env with
    | FetchOutcome.ok u =>
      let w2 : World := { w1 with httpLog := w1.httpLog ++ ["GET /api/core/users/:id"] }
      if u.role ∉ ALLOWED_ADMIN_ROLES then
        (storeSet w2 { user := some u, isAuthenticated := true, isLoading := false,
                       error := some "Access Denied: Insufficient permissions" }, false)
      else
        (storeSet w2 { user := some u, isAuthenticated := true, isLoading := false,
                       error := none }, true)
    | FetchOutcome.httpErr m =>
      let w2 : World := { w1 with httpLog := w1.httpLog ++ ["GET /api/core/users/:id"] }
      let w3 : World := { w2 with storage := clearTokens w2.storage }
      (storeSet w3 { user := none, isAuthenticated := false, isLoading := false,
                     error := some m }, false)
    | FetchOutcome.decodeErr m =>
      let w3 : World := { w1 with storage := clearTokens w1.storage }
      (storeSet w3 { user := none, isAuthenticated := false, isLoading := false,
                     error := some m }, false)
  else
    (storeSet w { w.state with isAuthenticated := false, isLoading := false }, false)

/-- One invocation of a Session Store action, with the environment data the
action consumes; used to talk about arbitrary operation sequences. -/
inductive StoreOp where
  | opSetUser (u : User)
  | opSetLoading (b : Bool)
  | opSetError (e : Option String)
  | opClearError
  | opLogin (t : AuthTokens)
  | opLogout (env : NetResult)
  | opCheckAuth (env : FetchOutcome)
deriving DecidableEq, Repr

/-- Run one store operation (return values discarded). -/
def applyOp (op : StoreOp) (w : World) : World :=
  match op with
  | StoreOp.opSetUser u => setUserStore u w
  | StoreOp.opSetLoading b => setLoadingStore b w
  | StoreOp.opSetError e => setErrorStore e w
  | StoreOp.opClearError => clearErrorStore w
  | StoreOp.opLogin t => loginStore t w
  | StoreOp.opLogout env => (logoutStore env w).1
  | StoreOp.opCheckAuth env => (checkAuthStore env w).1

/-- Run a sequence of store operations from left to right. -/
def runOps (ops : List StoreOp) (w : World) : World :=
  match ops with
  | [] => w
  | op :: rest => runOps rest (applyOp op w)

/-- The Session invariant stated in the spec:
`isAuthenticated == true` implies `user != null`. -/
def sessionInvariant (s : AuthState) : Prop :=
  s.isAuthenticated = true → s.user ≠ none

/- ---------------------------------------------------------------- -/
/- Route guard (`ProtectedRoute`).                                   -/
/- ---------------------------------------------------------------- -/

/-- The location the router reports for the currently requested page;
`ProtectedRoute` forwards it to the login redirect as `state.from`. -/
structure Location where
  pathname : String
deriving DecidableEq, Repr

/-- What `ProtectedRoute` renders. -/
inductive GuardResult where
  | loading
  | redirectLogin (fromLoc : Location)
  | redirectAccessDenied
  | content
deriving DecidableEq, Repr

/-- The `allowedRoles` literal inside `ProtectedRoute`. -/
def protectedRouteAllowedRoles : List Role :=
  [Role.admin, Role.super_admin, Role.moderator, Role.finance]

/-- The `ProtectedRoute` component: render the loading fallback while
`isLoading`; else redirect to `/login` carrying the current location when not
authenticated; else redirect to `/access-denied` when a current user exists
whose role is outside `allowedRoles`; else render the children. -/
def ProtectedRoute (s : AuthState) (loc : Location) : GuardResult :=
  if s.isLoading then GuardResult.loading
  else if ¬ s.isAuthenticated then GuardResult.redirectLogin loc
  else
    match s.user with
    | some u =>
      if u.role ∉ protectedRouteAllowedRoles then GuardResult.redirectAccessDenied
      else GuardResult.content
    | none => GuardResult.content

/- ---------------------------------------------------------------- -/
/- UsersPage (role gate and users-listing query).                    -/
/- ---------------------------------------------------------------- -/

/-- `ADMIN_ROLES` from `UsersPage.tsx`: the page-level allow-list. -/
def ADMIN_ROLES : List Role := [Role.admin, Role.super_admin]

/-- The react-query options `UsersPage` cares about here: a query runs on
render unless `enabled` is set to `false`; the default is `true`. -/
structure QueryOptions where
  enabled : Bool := true
deriving DecidableEq, Repr

/-- The options object `UsersPage` passes to `useQuery` for the users listing:
`queryKey`, `queryFn` and `placeholderData` only — no `enabled` field, so the
react-query default applies. -/
def usersListQueryOptions : QueryOptions := {}

/-- The top-level branch `UsersPage` renders. -/
inductive UsersView where
  | accessDenied (message : String)
  | usersTable
deriving DecidableEq, Repr

/-- The observable outcome of one render of `UsersPage`: which branch is shown
and whether the users-listing query fires on that render. -/
structure UsersPageRender where
  view : UsersView
  listQueryIssued : Bool
deriving DecidableEq, Repr

/-- `const isAdmin = !!currentUser && ADMIN_ROLES.includes(currentUser.role)`
from `UsersPage.tsx`. -/
def usersPageIsAdmin (currentUser : Option User) : Bool :=
  match currentUser with
  | some u => u.role ∈ ADMIN_ROLES
  | none => false

/-- One render of `UsersPage` for the given current user.  The hooks section
runs first: `useQuery` fires iff its options enable it (`UsersPage` passes no
`enabled`, so the listing query is unconditional).  Then the render section:
`if (!isAdmin) return <AccessDenied message="Only admins can manage users." />`,
else the users table. -/
def usersPageRender (currentUser : Option User) : UsersPageRender :=
  let isAdmin := usersPageIsAdmin currentUser
  { view :=
      if isAdmin then UsersView.usersTable
      else UsersView.accessDenied "Only admins can manage users."
    listQueryIssued := usersListQueryOptions.enabled }

/- ---------------------------------------------------------------- -/
/- usePaginationRange (StatsPage.tsx / usePagination hook).          -/
/- ---------------------------------------------------------------- -/

/-- An entry of the pagination range: a page number or the `"..."` marker. -/
inductive PageItem where
  | page (n : Nat)
  | dots
deriving DecidableEq, Repr

/-- The inclusive ascending range `[a, a+1, ..., b]` (empty when `b < a`),
i.e. the JS loop `for (let i = a; i <= b; i++) pages.push(i)`. -/
def rangeInc (a b : Nat) : List Nat :=
  (List.range (b + 1 - a)).map (a + ·)

/-- `usePaginationRange(totalPages, currentPage)`: up to 7 entries; all pages
when `totalPages <= 7`, otherwise first page, optional left `"..."`, a window
`[max(2, cur-1), min(totalPages-1, cur+1)]`, optional right `"..."`, last
page. -/
def usePaginationRange (totalPages currentPage : Nat) : List PageItem :=
  if totalPages ≤ 7 then
    (rangeInc 1 totalPages).map PageItem.page
  else
    let start := max 2 (currentPage - 1)
    let stop := min (totalPages - 1) (currentPage + 1)
    [PageItem.page 1]
      ++ (if 3 < currentPage then [PageItem.dots] else [])
      ++ (rangeInc start stop).map PageItem.page
      ++ (if currentPage < totalPages - 2 then [PageItem.dots] else [])
      ++ [PageItem.page totalPages]

/-- The page number an entry carries, if it is not a `"..."` marker. -/
def pageNum? (it : PageItem) : Option Nat :=
  match it with
  | PageItem.page n => some n
  | PageItem.dots => none

/-- The shape `usePaginationRange` produces in its `totalPages > 7` branch:
first page, an optional marker block, the window `[a..b]`, an optional marker
block, last page. -/
def paginationChain (a b tp : Nat) (d1 d2 : List PageItem) : List PageItem :=
  [PageItem.page 1] ++ d1 ++ (rangeInc a b).map PageItem.page ++ d2 ++ [PageItem.page tp]

/- ---------------------------------------------------------------- -/
/- ConfirmModal.                                                     -/
/- ---------------------------------------------------------------- -/

/-- The word the user must type in `ConfirmModal` before the confirm button
becomes active (`const confirmWord = "CONFIRM"`). -/
def confirmWord : String := "CONFIRM"

/-- State of a mounted `ConfirmModal`: the `open` prop it currently sees
(named `isOpen` here) and the `typed` input state. -/
structure ModalState where
  isOpen : Bool
  typed : String
deriving DecidableEq, Repr

/-- Events acting on a mounted `ConfirmModal`: the parent changes the `open`
prop, or the user edits the confirmation input. -/
inductive ModalEvent where
  | setOpen (b : Bool)
  | typeText (s : String)
deriving DecidableEq, Repr

/-- One step of the modal.  `useEffect(() => { if (open) setTyped("") }, [open])`
runs exactly when the `open` prop changes, clearing `typed` on every
transition to open; the text input exists only while the modal is open, so
`typeText` is a no-op on a closed modal. -/
def modalStep (st : ModalState) (e : ModalEvent) : ModalState :=
  match e with
  | ModalEvent.setOpen b =>
    if b = st.isOpen then st
    else { isOpen := b, typed := if b then "" else st.typed }
  | ModalEvent.typeText s =>
    if st.isOpen then { st with typed := s } else st

/-- The `disabled` expression of the confirm button:
`typed !== confirmWord || isPending`. -/
def confirmDisabled (st : ModalState) (isPending : Bool) : Bool :=
  decide (st.typed ≠ confirmWord) || isPending

/- ---------------------------------------------------------------- -/
/- Concrete fixtures used by witnesses and counterexamples.          -/
/- ---------------------------------------------------------------- -/

/-- A user holding the `finance` role (in the platform minimum allow-list but
outside the Users-page allow-list). -/
def financeUser : User :=
  { id := "u-fin", first_name := "Fiona", last_name := "Finch",
    contact_id := "c1", security_id := "s1", profile_id := "p1",
    role := Role.finance, status := UserStatus.active, is_creator := false,
    created_at := "2024-01-01", updated_at := "2024-01-01" }

/-- A user holding the plain `user` role (outside the platform minimum
allow-list). -/
def plainUser : User :=
  { id := "u-plain", first_name := "Pat", last_name := "Plain",
    contact_id := "c2", security_id := "s2", profile_id := "p2",
    role := Role.user, status := UserStatus.active, is_creator := false,
    created_at := "2024-01-01", updated_at := "2024-01-01" }

/-- A user holding the `moderator` role. -/
def moderatorUser : User :=
  { id := "u-mod", first_name := "Max", last_name := "Mod",
    contact_id := "c3", security_id := "s3", profile_id := "p3",
    role := Role.moderator, status := UserStatus.active, is_creator := false,
    created_at := "2024-01-01", updated_at := "2024-01-01" }

/-- A concrete Credential Pair. -/
def sampleTokens : AuthTokens :=
  { access_token := "a1", refresh_token := "r1", token_type := "bearer",
    user_id := "u-fin", expires_in := none }

/-- A world in which a Credential Pair is stored and a moderator session is
established. -/
def authedWorld : World :=
  { state := { user := some moderatorUser, isAuthenticated := true,
               isLoading := false, error := none }
    storage := { access := some "a1", refresh := some "r1" }
    persisted := { user := some moderatorUser, isAuthenticated := true }
    httpLog := [] }

/-- A world holding only a refresh token — the asymmetric token-presence
scenario from the spec. -/
def refreshOnlyWorld : World :=
  { state := initialState
    storage := { access := none, refresh := some "r1" }
    persisted := partialize initialState
    httpLog := [] }

/- ---------------------------------------------------------------- -/
/- Theorems.                                                         -/
/- ---------------------------------------------------------------- -/

/-- C1: whenever `checkAuth` runs with a stored access token and the identity
fetch fails — the GET throwing (network error, 401/404) or the local token
decode throwing — the resulting state is exactly `user=null`,
`isAuthenticated=false`, `isLoading=false`, `error=<failure message>`, the
call returns `false`, and both tokens have been cleared from storage. -/
theorem checkAuth_fetch_failure_fail_closed (w : World) (m : String)
    (h : hasStoredToken w.storage = true) :
    ((checkAuthStore (FetchOutcome.httpErr m) w).1.state =
        { user := none, isAuthenticated := false, isLoading := false, error := some m }
      ∧ (checkAuthStore (FetchOutcome.httpErr m) w).2 = false
      ∧ (checkAuthStore (FetchOutcome.httpErr m) w).1.storage =
          { access := none, refresh := none })
    ∧ ((checkAuthStore (FetchOutcome.decodeErr m) w).1.state =
        { user := none, isAuthenticated := false, isLoading := false, error := some m }
      ∧ (checkAuthStore (FetchOutcome.decodeErr m) w).2 = false
      ∧ (checkAuthStore (FetchOutcome.decodeErr m) w).1.storage =
          { access := none, refresh := none }) := by
  simp [checkAuthStore, h, storeSet, clearTokens, partialize]

/-- C1 witness: a concrete failing fetch from a world holding tokens. -/
theorem checkAuth_fetch_failure_fail_closed_witness :
    (checkAuthStore (FetchOutcome.httpErr "Network Error") authedWorld).1.state =
      { user := none, isAuthenticated := false, isLoading := false,
        error := some "Network Error" } :=
  (checkAuth_fetch_failure_fail_closed authedWorld "Network Error" (by decide)).1.1

/-- C2: whenever `checkAuth` runs with a stored access token and the fetched
user's role is outside `ALLOWED_ADMIN_ROLES`, the store keeps the fetched
identity, sets `isAuthenticated=true`, `isLoading=false`, a non-null
access-denied `error`, returns `false`, and leaves token storage untouched. -/
theorem checkAuth_insufficient_role (w : World) (u : User)
    (h : hasStoredToken w.storage = true) (hr : u.role ∉ ALLOWED_ADMIN_ROLES) :
    (checkAuthStore (FetchOutcome.ok u) w).1.state =
      { user := some u, isAuthenticated := true, isLoading := false,
        error := some "Access Denied: Insufficient permissions" }
    ∧ (checkAuthStore (FetchOutcome.ok u) w).2 = false
    ∧ (checkAuthStore (FetchOutcome.ok u) w).1.storage = w.storage := by
  simp [checkAuthStore, h, hr, storeSet]

/-- C2 witness: a plain `user`-role identity fetched from a tokened world. -/
theorem checkAuth_insufficient_role_witness :
    (checkAuthStore (FetchOutcome.ok plainUser) authedWorld).2 = false :=
  (checkAuth_insufficient_role authedWorld plainUser (by decide) (by decide)).2.1

/-- C5 (amended): every `logout` clears the Credential Pair and resets the
Session to the initial unauthenticated state regardless of the network
outcome; however the returned promise rejects (propagates the error) exactly
when a refresh token was present and the logout notification failed — the
store's `try … finally` restores state but does not swallow the exception. -/
theorem logout_always_clears_and_resets (w : World) (env : NetResult) :
    (logoutStore env w).1.state =
      { user := none, isAuthenticated := false, isLoading := false, error := none }
    ∧ (logoutStore env w).1.storage = { access := none, refresh := none }
    ∧ (logoutStore env w).2 =
        (match getRefreshToken w.storage, env with
          | some _, NetResult.err m => Except.error m
          | _, _ => Except.ok ()) := by
  cases hr : w.storage.refresh <;> cases env <;>
    simp [logoutStore, getRefreshToken, storeSet, clearTokens, hr]

/-- C5 counterexample: from an authenticated world holding a refresh token, a
failing logout notification makes `logout()`'s returned promise reject — the
failure is surfaced to the caller, even though the local reset did happen. -/
theorem logout_network_failure_rejects :
    (logoutStore (NetResult.err "Network Error") authedWorld).2 =
      Except.error "Network Error"
    ∧ (logoutStore (NetResult.err "Network Error") authedWorld).1.state =
        { user := none, isAuthenticated := false, isLoading := false, error := none } :=
  ⟨rfl, rfl⟩

/-- C6: when the token getter returns no access token, `checkAuth` sets
`isAuthenticated=false` and `isLoading=false`, returns `false`, and issues no
HTTP request — whatever the environment would have answered. -/
theorem checkAuth_no_access_token (w : World) (env : FetchOutcome)
    (h : getToken w.storage = none) :
    (checkAuthStore env w).1.state.isAuthenticated = false
    ∧ (checkAuthStore env w).1.state.isLoading = false
    ∧ (checkAuthStore env w).2 = false
    ∧ (checkAuthStore env w).1.httpLog = w.httpLog := by
  have hb : hasStoredToken w.storage = false := by simp [hasStoredToken, h]
  simp [checkAuthStore, hb, storeSet]

/-- C6 witness: the asymmetric scenario — refresh token `"r1"` stored, access
token absent — yields failure with zero HTTP calls. -/
theorem checkAuth_no_access_token_witness :
    (checkAuthStore (FetchOutcome.ok financeUser) refreshOnlyWorld).2 = false
    ∧ (checkAuthStore (FetchOutcome.ok financeUser) refreshOnlyWorld).1.httpLog = [] :=
  ⟨(checkAuth_no_access_token refreshOnlyWorld (FetchOutcome.ok financeUser) rfl).2.2.1,
   (checkAuth_no_access_token refreshOnlyWorld (FetchOutcome.ok financeUser) rfl).2.2.2⟩

/-- C7 counterexample: the invariant `isAuthenticated → user ≠ null` holds in
the initial state but is broken immediately after `login()` from it, because
`login` sets `isAuthenticated=true` without populating `user`. -/
theorem login_breaks_session_invariant :
    sessionInvariant initialWorld.state
    ∧ ¬ sessionInvariant (loginStore sampleTokens initialWorld).state := by
  constructor
  · intro hAuth
    exact absurd hAuth (by decide)
  · intro hInv
    exact hInv rfl rfl

/-- C7 (amended): the Session invariant `isAuthenticated → user ≠ null` is
preserved by `setUser`, `logout` and `checkAuth` from any state satisfying
it, and by `login` from any state whose `user` is already non-null; but
`login` from the initial unauthenticated state violates it (it sets
`isAuthenticated=true` and leaves `user=null`). -/
theorem session_invariant_ops :
    (∀ (w : World) (u : User),
      sessionInvariant w.state → sessionInvariant (setUserStore u w).state)
    ∧ (∀ (w : World) (env : NetResult),
      sessionInvariant w.state → sessionInvariant (logoutStore env w).1.state)
    ∧ (∀ (w : World) (env : FetchOutcome),
      sessionInvariant w.state → sessionInvariant (checkAuthStore env w).1.state)
    ∧ (∀ (w : World) (t : AuthTokens),
      w.state.user ≠ none → sessionInvariant (loginStore t w).state)
    ∧ (∀ t : AuthTokens, ¬ sessionInvariant (loginStore t initialWorld).state) := by
  refine ⟨?_, ?_, ?_, ?_, ?_⟩
  · intro w u _
    simp [sessionInvariant, setUserStore, storeSet]
  · intro w env _
    simp [sessionInvariant, logoutStore, storeSet]
  · intro w env _
    cases hs : hasStoredToken w.storage with
    | false => simp [sessionInvariant, checkAuthStore, hs, storeSet]
    | true =>
      cases env with
      | ok u =>
        by_cases hr : u.role ∉ ALLOWED_ADMIN_ROLES
        · simp [sessionInvariant, checkAuthStore, hs, hr, storeSet]
        · simp [sessionInvariant, checkAuthStore, hs, hr, storeSet]
      | httpErr m => simp [sessionInvariant, checkAuthStore, hs, storeSet]
      | decodeErr m => simp [sessionInvariant, checkAuthStore, hs, storeSet]
  · intro w t hu
    intro _
    simpa [loginStore, storeSet] using hu
  · intro t hInv
    exact hInv rfl rfl

/-- C7 witness: `setUser` applied in a concrete invariant-satisfying world. -/
theorem session_invariant_ops_witness :
    sessionInvariant (setUserStore financeUser authedWorld).state :=
  session_invariant_ops.1 authedWorld financeUser (by intro _; decide)

/-- Helper: every store operation ends in a `storeSet`, so right after any
single operation the persisted projection is `partialize` of the state. -/
theorem applyOp_persist_eq (op : StoreOp) (w : World) :
    (applyOp op w).persisted = partialize (applyOp op w).state := by
  cases op with
  | opSetUser u => rfl
  | opSetLoading b => rfl
  | opSetError e => rfl
  | opClearError => rfl
  | opLogin t => rfl
  | opLogout env => rfl
  | opCheckAuth env =>
    cases hs : hasStoredToken w.storage with
    | false => simp [applyOp, checkAuthStore, hs, storeSet]
    | true =>
      cases env with
      | ok u =>
        by_cases hr : u.role ∉ ALLOWED_ADMIN_ROLES
        · simp [applyOp, checkAuthStore, hs, hr, storeSet]
        · simp [applyOp, checkAuthStore, hs, hr, storeSet]
      | httpErr m => simp [applyOp, checkAuthStore, hs, storeSet]
      | decodeErr m => simp [applyOp, checkAuthStore, hs, storeSet]

/-- C8: after any sequence of store operations from a fresh client, the
Persisted Session Projection is exactly the record
`{user, isAuthenticated}` of the current state — a `PersistedProjection` has
no other fields, so no access token, refresh token, or loading/error flag is
ever written to it. -/
theorem persisted_projection_only_user_auth (ops : List StoreOp) :
    (runOps ops initialWorld).persisted =
      { user := (runOps ops initialWorld).state.user
        isAuthenticated := (runOps ops initialWorld).state.isAuthenticated } := by
  have key : ∀ (l : List StoreOp) (w : World), w.persisted = partialize w.state →
      (runOps l w).persisted = partialize (runOps l w).state := by
    intro l
    induction l with
    | nil =>
      intro w h
      simpa [runOps] using h
    | cons op rest ih =>
      intro w _
      simpa [runOps] using ih (applyOp op w) (applyOp_persist_eq op w)
  simpa [partialize] using key ops initialWorld rfl

/-- C3: the top-level route guard renders only the loading placeholder while
`isLoading`; else redirects to the login entry point carrying the requested
location when unauthenticated; else redirects to the access-denied view when
the current user's role is outside the platform minimum allow-list; otherwise
renders the protected subtree. -/
theorem protectedRoute_contract (s : AuthState) (loc : Location) :
    (s.isLoading = true → ProtectedRoute s loc = GuardResult.loading)
    ∧ (s.isLoading = false → s.isAuthenticated = false →
        ProtectedRoute s loc = GuardResult.redirectLogin loc)
    ∧ (∀ u : User, s.isLoading = false → s.isAuthenticated = true →
        s.user = some u → u.role ∉ protectedRouteAllowedRoles →
        ProtectedRoute s loc = GuardResult.redirectAccessDenied)
    ∧ (s.isLoading = false → s.isAuthenticated = true →
        (∀ u : User, s.user = some u → u.role ∈ protectedRouteAllowedRoles) →
        ProtectedRoute s loc = GuardResult.content) := by
  refine ⟨?_, ?_, ?_, ?_⟩
  · intro hl
    simp [ProtectedRoute, hl]
  · intro hl ha
    simp [ProtectedRoute, hl, ha]
  · intro u hl ha hu hr
    simp [ProtectedRoute, hl, ha, hu, hr]
  · intro hl ha hall
    cases hu : s.user with
    | none => simp [ProtectedRoute, hl, ha, hu]
    | some u => simp [ProtectedRoute, hl, ha, hu, hall u hu]

/-- C3 witness: a loading session renders the loading placeholder. -/
theorem protectedRoute_contract_witness :
    ProtectedRoute
      { user := none, isAuthenticated := false, isLoading := true, error := none }
      { pathname := "/users" } = GuardResult.loading :=
  (protectedRoute_contract
    { user := none, isAuthenticated := false, isLoading := true, error := none }
    { pathname := "/users" }).1 rfl

/-- C4 counterexample: a `finance`-role render of `UsersPage` shows the
access-denied panel, yet the users-listing query still fires on that render —
the query options carry no `enabled` gate, so the claim's "zero calls to the
users-listing endpoint" is false. -/
theorem usersPage_denied_render_queries :
    (usersPageRender (some financeUser)).view =
      UsersView.accessDenied "Only admins can manage users."
    ∧ (usersPageRender (some financeUser)).listQueryIssued = true := by
  constructor <;> decide

/-- C4 (amended): for every render of `UsersPage` by a user whose role is
outside the page allow-list `{admin, super_admin}`, the access-denied panel is
rendered, but the users-listing query is not gated on the role check and is
issued on that render anyway. -/
theorem usersPage_denied_but_query_runs (u : User) (hu : u.role ∉ ADMIN_ROLES) :
    (usersPageRender (some u)).view =
      UsersView.accessDenied "Only admins can manage users."
    ∧ (usersPageRender (some u)).listQueryIssued = true := by
  simp [usersPageRender, usersPageIsAdmin, usersListQueryOptions, hu]

/-- C4 amended-claim witness: a moderator render. -/
theorem usersPage_denied_but_query_runs_witness :
    (usersPageRender (some moderatorUser)).listQueryIssued = true :=
  (usersPage_denied_but_query_runs moderatorUser (by decide)).2

/-- Membership in an inclusive range. -/
theorem mem_rangeInc {a b x : Nat} : x ∈ rangeInc a b ↔ a ≤ x ∧ x ≤ b := by
  simp only [rangeInc, List.mem_map, List.mem_range]
  constructor
  · rintro ⟨i, hi, rfl⟩
    omega
  · rintro ⟨hax, hxb⟩
    exact ⟨x - a, by omega, by omega⟩

/-- Length of an inclusive range. -/
theorem length_rangeInc (a b : Nat) : (rangeInc a b).length = b + 1 - a := by
  simp [rangeInc]

/-- An inclusive range has no duplicates. -/
theorem nodup_rangeInc (a b : Nat) : (rangeInc a b).Nodup :=
  (List.nodup_range _).map (fun x y h => by omega)

theorem paginationChain_getLast? (a b tp : Nat) (d1 d2 : List PageItem) :
    (paginationChain a b tp d1 d2).getLast? = some (PageItem.page tp) := by
  simp only [paginationChain, ← List.append_assoc]
  exact List.getLast?_concat _

theorem paginationChain_mem (a b tp cp : Nat) (d1 d2 : List PageItem)
    (hcp : cp = 1 ∨ cp = tp ∨ (a ≤ cp ∧ cp ≤ b)) :
    PageItem.page cp ∈ paginationChain a b tp d1 d2 := by
  rcases hcp with rfl | rfl | ⟨hac, hcb⟩
  · simp [paginationChain]
  · simp [paginationChain]
  · have hmid : PageItem.page cp ∈ (rangeInc a b).map PageItem.page :=
      List.mem_map_of_mem _ (mem_rangeInc.mpr ⟨hac, hcb⟩)
    simp only [paginationChain, List.mem_append]
    tauto

theorem paginationChain_nums (a b tp : Nat) (d1 d2 : List PageItem)
    (hd1 : d1.filterMap pageNum? = []) (hd2 : d2.filterMap pageNum? = []) :
    (paginationChain a b tp d1 d2).filterMap pageNum? = 1 :: (rangeInc a b ++ [tp]) := by
  have h : pageNum? ∘ PageItem.page = Option.some := rfl
  simp [paginationChain, List.filterMap_append, hd1, hd2, List.filterMap_map, h,
    List.filterMap_some, pageNum?]

theorem paginationChain_nodup (a b tp : Nat) (d1 d2 : List PageItem)
    (hd1 : d1.filterMap pageNum? = []) (hd2 : d2.filterMap pageNum? = [])
    (ha : 2 ≤ a) (hb : b + 1 ≤ tp) (htp : 8 ≤ tp) :
    ((paginationChain a b tp d1 d2).filterMap pageNum?).Nodup := by
  rw [paginationChain_nums a b tp d1 d2 hd1 hd2]
  refine List.nodup_cons.mpr ⟨?_, ?_⟩
  · intro hmem
    rcases List.mem_append.mp hmem with hmem | hmem
    · have := mem_rangeInc.mp hmem
      omega
    · simp at hmem
      omega
  · refine List.Nodup.append (nodup_rangeInc a b) (List.nodup_singleton tp) ?_
    intro x hx hx'
    have := mem_rangeInc.mp hx
    simp at hx'
    omega

theorem paginationChain_count_dots (a b tp : Nat) (d1 d2 : List PageItem)
    (hd1c : d1.count PageItem.dots ≤ 1) (hd2c : d2.count PageItem.dots ≤ 1) :
    (paginationChain a b tp d1 d2).count PageItem.dots ≤ 2 := by
  have hmid : ((rangeInc a b).map PageItem.page).count PageItem.dots = 0 := by
    rw [List.count_eq_zero]
    simp [List.mem_map]
  simp [paginationChain, List.count_append, hmid]
  omega

theorem paginationChain_length (a b tp : Nat) (d1 d2 : List PageItem)
    (hd1l : d1.length ≤ 1) (hd2l : d2.length ≤ 1) (hba : b ≤ a + 2) :
    (paginationChain a b tp d1 d2).length ≤ 7 := by
  simp [paginationChain, List.length_append, length_rangeInc]
  omega

/-- C9: for `1 ≤ currentPage ≤ totalPages`, `usePaginationRange` returns
exactly `[1, …, totalPages]` when `totalPages ≤ 7`; otherwise the list starts
with page 1, ends with page `totalPages`, contains `currentPage`, carries no
duplicate page numbers, has at most two `"..."` markers, and at most 7
entries. -/
theorem usePaginationRange_spec (tp cp : Nat)
    (h1 : 1 ≤ tp) (h2 : 1 ≤ cp) (h3 : cp ≤ tp) :
    (tp ≤ 7 →
      usePaginationRange tp cp = (List.range tp).map (fun i => PageItem.page (i + 1)))
    ∧ (7 < tp →
        (usePaginationRange tp cp).head? = some (PageItem.page 1)
        ∧ (usePaginationRange tp cp).getLast? = some (PageItem.page tp)
        ∧ PageItem.page cp ∈ usePaginationRange tp cp
        ∧ ((usePaginationRange tp cp).filterMap pageNum?).Nodup
        ∧ (usePaginationRange tp cp).count PageItem.dots ≤ 2
        ∧ (usePaginationRange tp cp).length ≤ 7) := by
  constructor
  · intro hle
    have e1 : tp + 1 - 1 = tp := by omega
    simp only [usePaginationRange, if_pos hle, rangeInc, e1, List.map_map]
    exact List.map_congr_left (fun i _ => by simp [Nat.add_comm])
  · intro h7
    have hl : usePaginationRange tp cp =
        paginationChain (max 2 (cp - 1)) (min (tp - 1) (cp + 1)) tp
          (if 3 < cp then [PageItem.dots] else [])
          (if cp < tp - 2 then [PageItem.dots] else []) := by
      rw [usePaginationRange, if_neg (by omega)]
      rfl
    have hd1 : (if 3 < cp then [PageItem.dots] else []).filterMap pageNum? = []
        ∧ (if 3 < cp then [PageItem.dots] else []).count PageItem.dots ≤ 1
        ∧ (if 3 < cp then [PageItem.dots] else []).length ≤ 1 := by
      split <;> simp [pageNum?]
    have hd2 : (if cp < tp - 2 then [PageItem.dots] else []).filterMap pageNum? = []
        ∧ (if cp < tp - 2 then [PageItem.dots] else []).count PageItem.dots ≤ 1
        ∧ (if cp < tp - 2 then [PageItem.dots] else []).length ≤ 1 := by
      split <;> simp [pageNum?]
    rw [hl]
    exact ⟨rfl,
      paginationChain_getLast? _ _ _ _ _,
      paginationChain_mem _ _ _ _ _ _ (by omega),
      paginationChain_nodup _ _ _ _ _ hd1.1 hd2.1 (by omega) (by omega) (by omega),
      paginationChain_count_dots _ _ _ _ _ hd1.2.1 hd2.2.1,
      paginationChain_length _ _ _ _ _ hd1.2.2 hd2.2.2 (by omega)⟩

/-- C9 witness: `totalPages = 10`, `currentPage = 5`. -/
theorem usePaginationRange_spec_witness :
    PageItem.page 5 ∈ usePaginationRange 10 5
    ∧ (usePaginationRange 10 5).length ≤ 7 :=
  ⟨((usePaginationRange_spec 10 5 (by decide) (by decide) (by decide)).2
      (by decide)).2.2.1,
   ((usePaginationRange_spec 10 5 (by decide) (by decide) (by decide)).2
      (by decide)).2.2.2.2.2⟩

/-- C10: the shared `ConfirmModal`'s confirm button is enabled exactly when
the typed text equals `"CONFIRM"` and the modal is not pending; and every
transition of the `open` prop to `true` resets the typed text to `""`, so a
previously typed confirmation never carries over into a newly opened modal. -/
theorem confirmModal_gate :
    (∀ (st : ModalState) (isPending : Bool),
      confirmDisabled st isPending = false ↔ (st.typed = "CONFIRM" ∧ isPending = false))
    ∧ (∀ st : ModalState, st.isOpen = false →
        (modalStep st (ModalEvent.setOpen true)).typed = ""
        ∧ (modalStep st (ModalEvent.setOpen true)).isOpen = true) := by
  constructor
  · intro st p
    cases p <;> simp [confirmDisabled, confirmWord]
  · intro st h
    simp [modalStep, h]

/-- C10 witness: a stale `"CONFIRM"` in a closed modal is wiped on opening. -/
theorem confirmModal_gate_witness :
    (modalStep { isOpen := false, typed := "CONFIRM" } (ModalEvent.setOpen true)).typed = "" :=
  (confirmModal_gate.2 { isOpen := false, typed := "CONFIRM" } rfl).1

end AdminPortal
